import Mathlib

/-!
Shallow embedding of the ESP32 SH1106 clock firmware
(repository Wolfgang-Berlin/ESP32-WROOM-SSH1106).

The repository contains three variants of the same firmware:
- a deep-sleep variant (referred to here as `part 000`): its `loop` enters
  deep sleep via `sleepUntilSix` during the night hours 22:00 to 06:00;
- a minute-debounce variant (`ESP32-ssh1106.cpp`, referred to as the main
  variant): its `loop` runs a daily NTP sync at minute 30 of any hour at or
  after 4, guarded by the flag `syncDoneThisMinute`, and blanks the display
  at night without deep sleep;
- a day-guard variant (`part 001`): its `loop` syncs during hour 5 guarded
  by `lastSyncDay` (day of year of the last successful sync).

Machine integers: the relevant C values (`tm` fields, minutes, hours,
counters) are small non-negative ints, modelled as `Nat`; values that the
code initialises to `-1` (`lastDisplayedMinute`, `lastSyncDay`) are
modelled as `Int`.  `time_t` arithmetic is modelled as `Int` seconds.

`mktime` is modelled without the timezone and DST offset (both operands of
every `difftime` in the code go through the same local-time conversion, so
a constant offset cancels); its normalisation of an out-of-range
`tm_mday` is modelled exactly, via a day-count function that is linear in
the day-of-month argument (Howard Hinnant's civil-from-days algorithm).
-/

namespace ESP32Clock

/-- The fields of C `struct tm` that the firmware reads or writes.
`tm_mon` is 0-based (0..11) and `tm_year` counts years since 1900, as in C. -/
structure Tm where
  tm_sec : Nat
  tm_min : Nat
  tm_hour : Nat
  tm_mday : Nat
  tm_mon : Nat
  tm_year : Nat
  tm_yday : Nat
  deriving DecidableEq, Repr

/-- Range constraints that `localtime_r` guarantees for the fields the
firmware uses (a calendar-valid `tm_mday` upper bound is not needed by the
proofs; `mktime` normalises out-of-range days). -/
def Tm.inRange (t : Tm) : Prop :=
  t.tm_sec ≤ 59 ∧ t.tm_min ≤ 59 ∧ t.tm_hour ≤ 23 ∧ 1 ≤ t.tm_mday ∧ t.tm_mon ≤ 11

instance (t : Tm) : Decidable t.inRange := by
  unfold Tm.inRange; infer_instance

/-- Gregorian leap year rule. -/
def isLeap (y : Nat) : Bool := y % 4 == 0 && (y % 100 != 0 || y % 400 == 0)

/-- Number of days of month `m` (1-based) of year `y`. -/
def daysInMonth (y m : Nat) : Nat :=
  if m = 2 then (if isLeap y then 29 else 28)
  else if m = 4 ∨ m = 6 ∨ m = 9 ∨ m = 11 then 30 else 31

/-- Day count of civil date `y-m-d` (month 1-based) relative to 1970-01-01,
following Hinnant's civil-from-days algorithm.  The function is linear in
`d`, which models exactly how C `mktime` normalises an out-of-range
`tm_mday`.  Only used with `y ≥ 1` and `m ∈ [1,12]`. -/
def daysFromCivil (y m d : Nat) : Int :=
  let yAdj : Nat := if m ≤ 2 then y - 1 else y
  let era : Nat := yAdj / 400
  let yoe : Nat := yAdj % 400
  let mp : Nat := (m + 9) % 12
  let doy : Nat := (153 * mp + 2) / 5 + d - 1
  let doe : Nat := yoe * 365 + yoe / 4 - yoe / 100 + doy
  (era * 146097 + doe : Int) - 719468

/-- Model of C `mktime` on the local-time fields (timezone offset omitted:
it cancels in every difference the firmware computes).  Normalisation of an
out-of-range `tm_mday` is inherited from `daysFromCivil` being linear in
its day argument. -/
def mktime (t : Tm) : Int :=
  daysFromCivil (t.tm_year + 1900) (t.tm_mon + 1) t.tm_mday * 86400
    + t.tm_hour * 3600 + t.tm_min * 60 + t.tm_sec

/-! ### Deep-sleep variant (`part 000`): `sleepUntilSix` and `loop` -/

/-- The wake `struct tm` built by `sleepUntilSix`: copy of `nowLocal`,
day advanced by one when `tm_hour >= 22`, then time set to 06:00:00. -/
def wakeOf (nowLocal : Tm) : Tm :=
  let wake := nowLocal
  let wake := if 22 ≤ wake.tm_hour then { wake with tm_mday := wake.tm_mday + 1 } else wake
  { wake with tm_hour := 6, tm_min := 0, tm_sec := 0 }

/-- `sleepSeconds` as computed by `sleepUntilSix`:
`(uint64_t)difftime(wakeEpoch, nowEpoch)` followed by the floor
`if (sleepSeconds < 1) sleepSeconds = 1`.  The unsigned conversion is
modelled as `Int.toNat` (clamping at zero); on every input the firmware
reaches this code with, the difference is positive, so the conversion is
exact there. -/
def sleepSecondsOf (nowLocal : Tm) : Nat :=
  let nowEpoch : Int := mktime nowLocal
  let wakeEpoch : Int := mktime (wakeOf nowLocal)
  let sleepSeconds : Nat := (wakeEpoch - nowEpoch).toNat
  if sleepSeconds < 1 then 1 else sleepSeconds

/-- The sleep plan handed to `esp_sleep_enable_timer_wakeup`. -/
structure SleepPlan where
  wakeEpoch : Int
  durationSeconds : Nat
  deriving DecidableEq, Repr

/-- The plan computed by `sleepUntilSix` (the function also powers the
display down and never returns; those effects are modelled in `tick000`). -/
def sleepUntilSix (nowLocal : Tm) : SleepPlan :=
  { wakeEpoch := mktime (wakeOf nowLocal), durationSeconds := sleepSecondsOf nowLocal }

/-- The per-cycle decision of the deep-sleep variant. -/
inductive Action where
  | idle : Action
  | redraw : Tm → Action
  | enterNightSleep : SleepPlan → Action
  deriving DecidableEq, Repr

/-- Result of one `loop` iteration of the deep-sleep variant:
the decision, the new `lastDisplayedMinute`, and the argument of the
`setPowerSave` call issued this cycle, if any. -/
structure Tick000Result where
  action : Action
  lastDisplayedMinute : Int
  displayPowerSave : Option Nat
  deriving DecidableEq, Repr

/-- One iteration of `loop` in the deep-sleep variant: night check first
(hour ≥ 22 or hour < 6 → power the display down and deep-sleep with the
plan of `sleepUntilSix`, which ends the cycle), otherwise redraw when the
minute changed. -/
def tick000 (lastDisplayedMinute : Int) (nowLocal : Tm) : Tick000Result :=
  if 22 ≤ nowLocal.tm_hour ∨ nowLocal.tm_hour < 6 then
    { action := Action.enterNightSleep (sleepUntilSix nowLocal)
      lastDisplayedMinute := lastDisplayedMinute
      displayPowerSave := some 1 }
  else if (nowLocal.tm_min : Int) ≠ lastDisplayedMinute then
    { action := Action.redraw nowLocal
      lastDisplayedMinute := (nowLocal.tm_min : Int)
      displayPowerSave := none }
  else
    { action := Action.idle
      lastDisplayedMinute := lastDisplayedMinute
      displayPowerSave := none }

-- sanity checks of the calendar model
example : daysFromCivil 1970 1 1 = 0 := by decide
example : daysFromCivil 2025 1 1 = 20089 := by decide
example : daysFromCivil 2024 12 32 = daysFromCivil 2025 1 1 := by decide
example : daysFromCivil 2024 2 29 + 1 = daysFromCivil 2024 3 1 := by decide

/-! ### Calendar lemmas -/

/-- `daysFromCivil` is linear in the day argument: this is exactly the
`mktime` normalisation of an out-of-range `tm_mday`. -/
theorem daysFromCivil_succ (y m d : Nat) (hd : 1 ≤ d) :
    daysFromCivil y m (d + 1) = daysFromCivil y m d + 1 := by
  simp only [daysFromCivil]
  omega

set_option maxHeartbeats 1000000 in
/-- One past the last day of a month is the first day of the next month
(of the next year for December). -/
theorem daysFromCivil_month_end (y m : Nat) (hy : 1 ≤ y) (hm1 : 1 ≤ m) (hm : m ≤ 12) :
    daysFromCivil y m (daysInMonth y m + 1) =
      (if m = 12 then daysFromCivil (y + 1) 1 1 else daysFromCivil y (m + 1) 1) := by
  rcases Nat.lt_or_ge m 2 with h2 | h2
  · have hm1' : m = 1 := by omega
    subst hm1'
    simp [daysInMonth, daysFromCivil]
  · rcases Nat.lt_or_ge m 3 with h3 | h3
    · have hm2 : m = 2 := by omega
      subst hm2
      have hdim : daysInMonth y 2 = if isLeap y then 29 else 28 := by
        simp [daysInMonth]
      rw [hdim]
      by_cases hl : isLeap y = true
      · have hl' : y % 4 = 0 ∧ (y % 100 ≠ 0 ∨ y % 400 = 0) := by
          simpa [isLeap] using hl
        rw [if_pos hl]
        simp [daysFromCivil]
        omega
      · have hl' : ¬(y % 4 = 0 ∧ (y % 100 ≠ 0 ∨ y % 400 = 0)) := by
          simpa [isLeap] using hl
        rw [if_neg hl]
        simp [daysFromCivil]
        omega
    · interval_cases m <;> simp [daysInMonth, daysFromCivil]

/-- The epoch of the wake instant, in terms of the epoch day of `now`:
the day advances by one exactly when `tm_hour ≥ 22`, and the time of day
is 06:00:00. -/
theorem mktime_wakeOf (t : Tm) (hd : 1 ≤ t.tm_mday) :
    mktime (wakeOf t) =
      (daysFromCivil (t.tm_year + 1900) (t.tm_mon + 1) t.tm_mday
        + (if 22 ≤ t.tm_hour then 1 else 0)) * 86400 + 21600 := by
  by_cases h : 22 ≤ t.tm_hour
  · simp only [wakeOf, if_pos h, mktime]
    rw [daysFromCivil_succ _ _ _ hd]
    simp
  · simp only [wakeOf, if_neg h, mktime]
    simp

/-- During night phase the wake epoch lies strictly after `now`, at most one
day later, and on a 06:00:00 boundary. -/
theorem wake_night_bounds (t : Tm) (hr : t.inRange)
    (hn : 22 ≤ t.tm_hour ∨ t.tm_hour < 6) :
    mktime t < mktime (wakeOf t) ∧
    mktime (wakeOf t) ≤ mktime t + 86400 ∧
    mktime (wakeOf t) % 86400 = 21600 := by
  obtain ⟨hs, hm, hh, hd, hmon⟩ := hr
  rw [mktime_wakeOf t hd]
  simp only [mktime]
  generalize daysFromCivil (t.tm_year + 1900) (t.tm_mon + 1) t.tm_mday = D
  by_cases h22 : 22 ≤ t.tm_hour
  · rw [if_pos h22]
    omega
  · rw [if_neg h22]
    have h6 : t.tm_hour < 6 := by
      rcases hn with h | h
      · exact absurd h h22
      · exact h
    omega

/-- Every month has at least one day. -/
theorem daysInMonth_pos (y m : Nat) : 1 ≤ daysInMonth y m := by
  unfold daysInMonth
  split_ifs <;> omega

/-! ### Claim theorems for the deep-sleep variant -/

/-- A concrete night-phase instant: 2025-06-15, 23:59:00. -/
def tNight : Tm :=
  { tm_sec := 0, tm_min := 59, tm_hour := 23, tm_mday := 15,
    tm_mon := 5, tm_year := 125, tm_yday := 165 }

/-- C1: for every `now` whose hour is in [22,23] or [0,5], one `loop`
iteration of the deep-sleep variant powers the display down and enters
deep sleep with the plan computed by `sleepUntilSix`, and performs no
other action (the `enterNightSleep` decision is exclusive of redraw and
idle by constructor disjointness). -/
theorem night_enters_deep_sleep (last : Int) (t : Tm)
    (hn : (22 ≤ t.tm_hour ∧ t.tm_hour ≤ 23) ∨ t.tm_hour ≤ 5) :
    (tick000 last t).action = Action.enterNightSleep (sleepUntilSix t) ∧
    (tick000 last t).displayPowerSave = some 1 := by
  have h : 22 ≤ t.tm_hour ∨ t.tm_hour < 6 := by omega
  rw [tick000, if_pos h]
  exact ⟨rfl, rfl⟩

/-- Witness for C1 at 23:59:00. -/
theorem night_enters_deep_sleep_witness :
    ((22 ≤ tNight.tm_hour ∧ tNight.tm_hour ≤ 23) ∨ tNight.tm_hour ≤ 5) ∧
    ((tick000 (-1) tNight).action = Action.enterNightSleep (sleepUntilSix tNight) ∧
     (tick000 (-1) tNight).displayPowerSave = some 1) :=
  ⟨by decide, night_enters_deep_sleep (-1) tNight (by decide)⟩

/-- C2: for every night-phase `now`, the wake instant computed by
`sleepUntilSix` is the next occurrence of 06:00:00 strictly after `now`:
the date is advanced by one day exactly when `tm_hour ≥ 22`, the wake time
of day is 06:00:00, and the wake epoch lies strictly after `now`, at most
one day later, on a 06:00:00 boundary. -/
theorem wake_is_next_six (t : Tm) (hr : t.inRange)
    (hn : 22 ≤ t.tm_hour ∨ t.tm_hour < 6) :
    (wakeOf t).tm_hour = 6 ∧ (wakeOf t).tm_min = 0 ∧ (wakeOf t).tm_sec = 0 ∧
    (wakeOf t).tm_mon = t.tm_mon ∧ (wakeOf t).tm_year = t.tm_year ∧
    (wakeOf t).tm_mday = (if 22 ≤ t.tm_hour then t.tm_mday + 1 else t.tm_mday) ∧
    mktime t < mktime (wakeOf t) ∧
    mktime (wakeOf t) ≤ mktime t + 86400 ∧
    mktime (wakeOf t) % 86400 = 21600 := by
  obtain ⟨hlt, hle, hmod⟩ := wake_night_bounds t hr hn
  refine ⟨?_, ?_, ?_, ?_, ?_, ?_, hlt, hle, hmod⟩ <;>
    simp only [wakeOf] <;> split_ifs <;> rfl

/-- Witness for C2 at 23:59:00 (day advances to the 16th). -/
theorem wake_is_next_six_witness :
    tNight.inRange ∧ (22 ≤ tNight.tm_hour ∨ tNight.tm_hour < 6) ∧
    ((wakeOf tNight).tm_hour = 6 ∧ (wakeOf tNight).tm_min = 0 ∧
     (wakeOf tNight).tm_sec = 0 ∧
     (wakeOf tNight).tm_mon = tNight.tm_mon ∧
     (wakeOf tNight).tm_year = tNight.tm_year ∧
     (wakeOf tNight).tm_mday =
       (if 22 ≤ tNight.tm_hour then tNight.tm_mday + 1 else tNight.tm_mday) ∧
     mktime tNight < mktime (wakeOf tNight) ∧
     mktime (wakeOf tNight) ≤ mktime tNight + 86400 ∧
     mktime (wakeOf tNight) % 86400 = 21600) :=
  ⟨by decide, by decide, wake_is_next_six tNight (by decide) (by decide)⟩

/-- C5: for every night-phase `now`, the duration handed to the sleep
primitive equals `max 1 (wakeEpoch - nowEpoch)` and is at least 1. -/
theorem sleep_duration_floor (t : Tm) (hr : t.inRange)
    (hn : 22 ≤ t.tm_hour ∨ t.tm_hour < 6) :
    ((sleepUntilSix t).durationSeconds : Int)
        = max 1 (mktime (wakeOf t) - mktime t) ∧
    1 ≤ (sleepUntilSix t).durationSeconds := by
  obtain ⟨hlt, _, _⟩ := wake_night_bounds t hr hn
  have hpos : 1 ≤ mktime (wakeOf t) - mktime t := by omega
  simp only [sleepUntilSix, sleepSecondsOf]
  rw [max_eq_right hpos]
  have hnn : ¬ (mktime (wakeOf t) - mktime t).toNat < 1 := by omega
  rw [if_neg hnn]
  constructor
  · omega
  · omega

/-- Witness for C5 at 23:59:00. -/
theorem sleep_duration_floor_witness :
    tNight.inRange ∧ (22 ≤ tNight.tm_hour ∨ tNight.tm_hour < 6) ∧
    (((sleepUntilSix tNight).durationSeconds : Int)
        = max 1 (mktime (wakeOf tNight) - mktime tNight) ∧
     1 ≤ (sleepUntilSix tNight).durationSeconds) :=
  ⟨by decide, by decide, sleep_duration_floor tNight (by decide) (by decide)⟩

/-- C10: for every night-phase `now` with `tm_hour ≥ 22` falling on the
last day of its month, the wake instant computed by `sleepUntilSix` is
06:00:00 on the first day of the following month (of the following year
in December), because the epoch conversion normalises the out-of-range
day-of-month. -/
theorem wake_month_rollover (t : Tm) (hr : t.inRange) (h22 : 22 ≤ t.tm_hour)
    (hlast : t.tm_mday = daysInMonth (t.tm_year + 1900) (t.tm_mon + 1)) :
    mktime (wakeOf t) =
      mktime { tm_sec := 0, tm_min := 0, tm_hour := 6, tm_mday := 1,
               tm_mon := (t.tm_mon + 1) % 12,
               tm_year := if t.tm_mon = 11 then t.tm_year + 1 else t.tm_year,
               tm_yday := t.tm_yday } := by
  obtain ⟨hs, hm, hh, hd, hmon⟩ := hr
  rw [mktime_wakeOf t hd, if_pos h22]
  rw [hlast]
  have hdim : 1 ≤ daysInMonth (t.tm_year + 1900) (t.tm_mon + 1) :=
    daysInMonth_pos _ _
  rw [← daysFromCivil_succ _ _ _ hdim]
  rw [daysFromCivil_month_end (t.tm_year + 1900) (t.tm_mon + 1)
      (by omega) (by omega) (by omega)]
  by_cases h11 : t.tm_mon = 11
  · rw [if_pos (by omega : t.tm_mon + 1 = 12)]
    simp only [mktime, h11]
    norm_num
  · rw [if_neg (by omega : ¬ t.tm_mon + 1 = 12)]
    simp only [mktime]
    have hmod12 : (t.tm_mon + 1) % 12 = t.tm_mon + 1 := by omega
    rw [if_neg h11, hmod12]
    norm_num

/-- A concrete year-boundary instant: 2025-12-31, 23:00:00. -/
def tNewYear : Tm :=
  { tm_sec := 0, tm_min := 0, tm_hour := 23, tm_mday := 31,
    tm_mon := 11, tm_year := 125, tm_yday := 364 }

/-- Witness for C10 at 2025-12-31 23:00:00 (wake on 2026-01-01 06:00:00). -/
theorem wake_month_rollover_witness :
    tNewYear.inRange ∧ 22 ≤ tNewYear.tm_hour ∧
    tNewYear.tm_mday = daysInMonth (tNewYear.tm_year + 1900) (tNewYear.tm_mon + 1) ∧
    mktime (wakeOf tNewYear) =
      mktime { tm_sec := 0, tm_min := 0, tm_hour := 6, tm_mday := 1,
               tm_mon := (tNewYear.tm_mon + 1) % 12,
               tm_year := if tNewYear.tm_mon = 11 then tNewYear.tm_year + 1
                          else tNewYear.tm_year,
               tm_yday := tNewYear.tm_yday } :=
  ⟨by decide, by decide, by decide,
    wake_month_rollover tNewYear (by decide) (by decide) (by decide)⟩

/-! ### Main variant (`ESP32-ssh1106.cpp`): `loop` with minute debounce -/

def Sync_Stunde : Nat := 4
def Sync_Min : Nat := 30
def sleepTime_Start : Nat := 22
def sleepTime_End : Nat := 6

/-- The static locals of the main variant's `loop`. -/
structure MainState where
  syncDoneThisMinute : Bool
  lastDisplayedMinute : Int
  deriving DecidableEq, Repr

/-- Externally visible effects of one `loop` iteration of the main
variant: whether `syncTime` was called, whether `drawTime` was called,
and the argument of the `setPowerSave` call issued this cycle, if any. -/
structure MainCycleOut where
  attemptSync : Bool
  redraw : Bool
  displayPowerSave : Option Nat
  deriving DecidableEq, Repr

/-- The sync section at the top of the main variant's `loop`: call
`syncTime` when `tm_hour >= Sync_Stunde`, `tm_min == Sync_Min` and
`syncDoneThisMinute` is clear, setting the flag; afterwards clear the flag
whenever `tm_min != Sync_Min`.  Returns (attempted, new flag). -/
def syncStep (syncDone : Bool) (t : Tm) : Bool × Bool :=
  let attemptAndFlag :=
    if Sync_Stunde ≤ t.tm_hour ∧ t.tm_min = Sync_Min ∧ syncDone = false then
      (true, true)
    else (false, syncDone)
  let flag := if t.tm_min ≠ Sync_Min then false else attemptAndFlag.2
  (attemptAndFlag.1, flag)

/-- One iteration of the main variant's `loop`: the sync section, then the
day/night display section (night: power the display down on a minute
change; day: power it up and redraw on a minute change). -/
def tickMain (s : MainState) (t : Tm) : MainCycleOut × MainState :=
  let sync := syncStep s.syncDoneThisMinute t
  if sleepTime_Start ≤ t.tm_hour ∨ t.tm_hour < sleepTime_End then
    if (t.tm_min : Int) ≠ s.lastDisplayedMinute then
      ({ attemptSync := sync.1, redraw := false, displayPowerSave := some 1 },
       { syncDoneThisMinute := sync.2, lastDisplayedMinute := (t.tm_min : Int) })
    else
      ({ attemptSync := sync.1, redraw := false, displayPowerSave := none },
       { syncDoneThisMinute := sync.2, lastDisplayedMinute := s.lastDisplayedMinute })
  else
    if (t.tm_min : Int) ≠ s.lastDisplayedMinute then
      ({ attemptSync := sync.1, redraw := true, displayPowerSave := some 0 },
       { syncDoneThisMinute := sync.2, lastDisplayedMinute := (t.tm_min : Int) })
    else
      ({ attemptSync := sync.1, redraw := false, displayPowerSave := some 0 },
       { syncDoneThisMinute := sync.2, lastDisplayedMinute := s.lastDisplayedMinute })

/-- Iterate `tickMain` over a list of clock readings, counting the
`syncTime` calls. -/
def runTicksAux (acc : Nat × MainState) (ts : List Tm) : Nat × MainState :=
  ts.foldl (fun acc t =>
    let r := tickMain acc.2 t
    (acc.1 + (if r.1.attemptSync then 1 else 0), r.2)) acc

def runTicks (s : MainState) (ts : List Tm) : Nat × MainState :=
  runTicksAux (0, s) ts

/-- The same iteration restricted to the sync section (used to relate the
attempt count to the debounce flag alone). -/
def syncFoldAux (acc : Nat × Bool) (ts : List Tm) : Nat × Bool :=
  ts.foldl (fun acc t =>
    let r := syncStep acc.2 t
    (acc.1 + (if r.1 then 1 else 0), r.2)) acc

theorem tickMain_attemptSync (s : MainState) (t : Tm) :
    ((tickMain s t).1).attemptSync = (syncStep s.syncDoneThisMinute t).1 := by
  simp only [tickMain]
  split_ifs <;> rfl

theorem tickMain_flag (s : MainState) (t : Tm) :
    ((tickMain s t).2).syncDoneThisMinute = (syncStep s.syncDoneThisMinute t).2 := by
  simp only [tickMain]
  split_ifs <;> rfl

/-- The display section does not influence the attempt count. -/
theorem runTicksAux_count (ts : List Tm) :
    ∀ (n : Nat) (s : MainState),
      (runTicksAux (n, s) ts).1 = (syncFoldAux (n, s.syncDoneThisMinute) ts).1 := by
  induction ts with
  | nil => intro n s; rfl
  | cons t ts ih =>
      intro n s
      show (runTicksAux
              (n + (if (tickMain s t).1.attemptSync then 1 else 0),
               (tickMain s t).2) ts).1
          = (syncFoldAux
              (n + (if (syncStep s.syncDoneThisMinute t).1 then 1 else 0),
               (syncStep s.syncDoneThisMinute t).2) ts).1
      rw [ih, tickMain_attemptSync, tickMain_flag]

/-- The scheduled sync minute 04:30:00 .. 04:30:59 on 2025-06-15, one
reading per second. -/
def syncMinuteTicks : List Tm :=
  (List.range 60).map (fun s =>
    { tm_sec := s, tm_min := 30, tm_hour := 4, tm_mday := 15,
      tm_mon := 5, tm_year := 125, tm_yday := 165 })

/-- C3: the debounce flag is cleared on every cycle whose minute differs
from `Sync_Min`, and ticking once per second through the whole minute
04:30:00–04:30:59 (entered with the flag clear) calls `syncTime` exactly
once. -/
theorem sync_debounce :
    (∀ (s : MainState) (t : Tm), t.tm_min ≠ Sync_Min →
        ((tickMain s t).2).syncDoneThisMinute = false) ∧
    (∀ s : MainState, s.syncDoneThisMinute = false →
        (runTicks s syncMinuteTicks).1 = 1) := by
  constructor
  · intro s t h
    rw [tickMain_flag]
    simp only [syncStep]
    rw [if_pos h]
  · intro s hs
    show (runTicksAux (0, s) syncMinuteTicks).1 = 1
    rw [runTicksAux_count, hs]
    decide

/-- Witness for C3: flag cleared at 23:59, and exactly one attempt over the
04:30 minute starting from a clear flag. -/
theorem sync_debounce_witness :
    (tNight.tm_min ≠ Sync_Min ∧
     ((tickMain ⟨true, -1⟩ tNight).2).syncDoneThisMinute = false) ∧
    ((⟨false, -1⟩ : MainState).syncDoneThisMinute = false ∧
     (runTicks ⟨false, -1⟩ syncMinuteTicks).1 = 1) :=
  ⟨⟨by decide, sync_debounce.1 ⟨true, -1⟩ tNight (by decide)⟩,
   ⟨rfl, sync_debounce.2 ⟨false, -1⟩ rfl⟩⟩

/-- C6: in day phase (hour in [6,21]) with a fresh minute, the first cycle
redraws and records the minute, the second cycle at the same instant does
not redraw, and a later day-phase cycle at a different minute redraws
again. -/
theorem day_redraw_idempotent (s : MainState) (t u : Tm)
    (h6 : 6 ≤ t.tm_hour) (h21 : t.tm_hour ≤ 21)
    (hfresh : s.lastDisplayedMinute ≠ (t.tm_min : Int))
    (h6u : 6 ≤ u.tm_hour) (h21u : u.tm_hour ≤ 21)
    (hmin : u.tm_min ≠ t.tm_min) :
    ((tickMain s t).1).redraw = true ∧
    ((tickMain s t).2).lastDisplayedMinute = (t.tm_min : Int) ∧
    ((tickMain (tickMain s t).2 t).1).redraw = false ∧
    ((tickMain (tickMain (tickMain s t).2 t).2 u).1).redraw = true := by
  have hday : ¬ (sleepTime_Start ≤ t.tm_hour ∨ t.tm_hour < sleepTime_End) := by
    simp only [sleepTime_Start, sleepTime_End]
    omega
  have hdayu : ¬ (sleepTime_Start ≤ u.tm_hour ∨ u.tm_hour < sleepTime_End) := by
    simp only [sleepTime_Start, sleepTime_End]
    omega
  have e1 : tickMain s t =
      ({ attemptSync := (syncStep s.syncDoneThisMinute t).1, redraw := true,
         displayPowerSave := some 0 },
       { syncDoneThisMinute := (syncStep s.syncDoneThisMinute t).2,
         lastDisplayedMinute := (t.tm_min : Int) }) := by
    simp only [tickMain]
    rw [if_neg hday, if_pos (Ne.symm hfresh)]
  rw [e1]
  have e2 : tickMain
      ⟨(syncStep s.syncDoneThisMinute t).2, (t.tm_min : Int)⟩ t =
      ({ attemptSync :=
           (syncStep (syncStep s.syncDoneThisMinute t).2 t).1, redraw := false,
         displayPowerSave := some 0 },
       { syncDoneThisMinute :=
           (syncStep (syncStep s.syncDoneThisMinute t).2 t).2,
         lastDisplayedMinute := (t.tm_min : Int) }) := by
    simp only [tickMain]
    rw [if_neg hday, if_neg (fun h => h rfl)]
  rw [e2]
  have hcast : (u.tm_min : Int) ≠ (t.tm_min : Int) := by
    exact_mod_cast hmin
  have e3 : tickMain
      ⟨(syncStep (syncStep s.syncDoneThisMinute t).2 t).2, (t.tm_min : Int)⟩ u =
      ({ attemptSync :=
           (syncStep (syncStep (syncStep s.syncDoneThisMinute t).2 t).2 u).1,
         redraw := true, displayPowerSave := some 0 },
       { syncDoneThisMinute :=
           (syncStep (syncStep (syncStep s.syncDoneThisMinute t).2 t).2 u).2,
         lastDisplayedMinute := (u.tm_min : Int) }) := by
    simp only [tickMain]
    rw [if_neg hdayu, if_pos hcast]
  rw [e3]
  exact ⟨rfl, rfl, rfl, rfl⟩

/-- A day-phase instant 2025-06-15 12:34:00 and the following minute. -/
def tDay : Tm :=
  { tm_sec := 0, tm_min := 34, tm_hour := 12, tm_mday := 15,
    tm_mon := 5, tm_year := 125, tm_yday := 165 }

def tDayNextMinute : Tm :=
  { tm_sec := 0, tm_min := 35, tm_hour := 12, tm_mday := 15,
    tm_mon := 5, tm_year := 125, tm_yday := 165 }

/-- Witness for C6 at 12:34 then 12:35. -/
theorem day_redraw_idempotent_witness :
    (6 ≤ tDay.tm_hour ∧ tDay.tm_hour ≤ 21 ∧
     (⟨false, -1⟩ : MainState).lastDisplayedMinute ≠ (tDay.tm_min : Int) ∧
     6 ≤ tDayNextMinute.tm_hour ∧ tDayNextMinute.tm_hour ≤ 21 ∧
     tDayNextMinute.tm_min ≠ tDay.tm_min) ∧
    (((tickMain ⟨false, -1⟩ tDay).1).redraw = true ∧
     ((tickMain ⟨false, -1⟩ tDay).2).lastDisplayedMinute = (tDay.tm_min : Int) ∧
     ((tickMain (tickMain ⟨false, -1⟩ tDay).2 tDay).1).redraw = false ∧
     ((tickMain (tickMain (tickMain ⟨false, -1⟩ tDay).2 tDay).2
        tDayNextMinute).1).redraw = true) :=
  ⟨by decide,
   day_redraw_idempotent ⟨false, -1⟩ tDay tDayNextMinute
     (by decide) (by decide) (by decide) (by decide) (by decide) (by decide)⟩

/-! ### `syncTime` of the main variant, with the device state threaded
explicitly.  Status messages are modelled as tags naming the literal
strings the code shows ("WLAN an…", "WLAN Timeout", "NTP Sync…",
"NTP fehlgeschlagen", "Zeit OK"); string rendering itself is a display
detail outside the scheduling core. -/

inductive Status where
  | wlanAn : Status
  | wlanTimeout : Status
  | ntpSync : Status
  | ntpFailed : Status
  | zeitOk : Status
  deriving DecidableEq, Repr

/-- WiFi radio mode: `WIFI_OFF` or `WIFI_STA`. -/
inductive WifiMode where
  | off : WifiMode
  | sta : WifiMode
  deriving DecidableEq, Repr

/-- WiFi power-save mode: `WIFI_PS_NONE` or `WIFI_PS_MIN_MODEM`. -/
inductive PsMode where
  | psNone : PsMode
  | psMinModem : PsMode
  deriving DecidableEq, Repr

/-- The device state `syncTime` touches: radio mode and association,
CPU frequency, WiFi power-save mode, `WiFi.setSleep` flag, and the status
messages shown on the OLED. -/
structure Device where
  wifiMode : WifiMode
  wifiConnected : Bool
  cpuMhz : Nat
  psMode : PsMode
  wifiSleep : Bool
  statusLog : List Status
  deriving DecidableEq, Repr

/-- `showStatus`: render a status message (appended to the log). -/
def showStatus (d : Device) (m : Status) : Device :=
  { d with statusLog := d.statusLog ++ [m] }

/-- `disconnectWiFi`: `WiFi.disconnect(true, true); WiFi.mode(WIFI_OFF)`. -/
def disconnectWiFi (d : Device) : Device :=
  { d with wifiConnected := false, wifiMode := WifiMode.off }

/-- The environment a `syncTime` call runs against: whether the
association succeeds within the 20 s connect bound, and the `tm_year`
value `localtime_r` reports on the i-th NTP poll. -/
structure SyncEnv where
  connectOk : Bool
  fetchedYear : Nat → Nat

/-- 2024 - 1900, the plausibility threshold on `tm_year`. -/
def minPlausibleYear : Nat := 2024 - 1900

/-- The bounded NTP poll of `syncTime`: up to 60 reads, stopping at the
first plausible year.  Returns the index of the accepted read, if any. -/
def ntpPoll (fetchedYear : Nat → Nat) : Option Nat :=
  (List.range 60).find? (fun i => decide (minPlausibleYear ≤ fetchedYear i))

/-- `syncTime` of the main variant: raise power, connect with a bounded
timeout (fail → status, disconnect, false), poll NTP up to 60 times for a
plausible year (fail → status, disconnect, false), on success show
"Zeit OK", disconnect, lower the CPU to 40 MHz, enable modem sleep, and
return true. -/
def syncTime (env : SyncEnv) (d : Device) : Bool × Device :=
  let d := showStatus d Status.wlanAn
  let d := { d with psMode := PsMode.psNone }
  let d := { d with cpuMhz := 160 }
  let d := { d with wifiMode := WifiMode.sta, wifiConnected := env.connectOk }
  if d.wifiConnected = false then
    let d := showStatus d Status.wlanTimeout
    (false, disconnectWiFi d)
  else
    let d := showStatus d Status.ntpSync
    match ntpPoll env.fetchedYear with
    | none =>
        let d := showStatus d Status.ntpFailed
        (false, disconnectWiFi d)
    | some _ =>
        let d := showStatus d Status.zeitOk
        let d := disconnectWiFi d
        let d := { d with cpuMhz := 40 }
        let d := { d with wifiSleep := true }
        let d := { d with psMode := PsMode.psMinModem }
        (true, d)

/-- C7: on every terminal outcome of `syncTime` — success, connect
timeout, or time-fetch failure — the WiFi session ends disconnected with
the radio off. -/
theorem syncTime_teardown (env : SyncEnv) (d : Device) :
    ((syncTime env d).2).wifiMode = WifiMode.off ∧
    ((syncTime env d).2).wifiConnected = false := by
  simp only [syncTime, showStatus, disconnectWiFi]
  cases env.connectOk <;> simp <;> cases ntpPoll env.fetchedYear <;> simp

/-- C8: after a successful connect, `syncTime` succeeds exactly when some
poll among the 60 returns a plausible year (≥ 2024); when the bounded poll
exhausts, it shows the sync-failure status, tears the session down, and
returns false. -/
theorem syncTime_plausibility (env : SyncEnv) (d : Device)
    (hc : env.connectOk = true) :
    ((syncTime env d).1 = true ↔
      ∃ i < 60, minPlausibleYear ≤ env.fetchedYear i) ∧
    ((∀ i < 60, env.fetchedYear i < minPlausibleYear) →
      (syncTime env d).1 = false ∧
      Status.ntpFailed ∈ ((syncTime env d).2).statusLog ∧
      ((syncTime env d).2).wifiMode = WifiMode.off ∧
      ((syncTime env d).2).wifiConnected = false) := by
  constructor
  · simp only [syncTime, showStatus, disconnectWiFi, hc]
    simp only [ntpPoll]
    rcases hfind : (List.range 60).find?
        (fun i => decide (minPlausibleYear ≤ env.fetchedYear i)) with _ | i
    · simp only [List.find?_eq_none] at hfind
      simp
      intro i hi
      have := hfind i (List.mem_range.mpr hi)
      simp only [decide_eq_true_eq] at this
      omega
    · have := List.find?_some hfind
      have hmem := List.mem_of_find?_eq_some hfind
      simp only [decide_eq_true_eq] at this
      simp
      exact ⟨i, List.mem_range.mp hmem, this⟩
  · intro hall
    have hnone : ntpPoll env.fetchedYear = none := by
      simp only [ntpPoll, List.find?_eq_none]
      intro i hi
      simp only [decide_eq_true_eq]
      have := hall i (List.mem_range.mp hi)
      omega
    simp only [syncTime, showStatus, disconnectWiFi, hc, hnone]
    simp

/-- Witness for C8: with a successful connect and every poll reporting
year 1970 (`tm_year = 70`), the attempt fails, shows the failure status,
and ends with the radio off. -/
def envAllImplausible : SyncEnv := { connectOk := true, fetchedYear := fun _ => 70 }

def deviceBoot : Device :=
  { wifiMode := WifiMode.off, wifiConnected := false, cpuMhz := 240,
    psMode := PsMode.psMinModem, wifiSleep := false, statusLog := [] }

theorem syncTime_plausibility_witness :
    envAllImplausible.connectOk = true ∧
    (((syncTime envAllImplausible deviceBoot).1 = true ↔
       ∃ i < 60, minPlausibleYear ≤ envAllImplausible.fetchedYear i) ∧
     ((∀ i < 60, envAllImplausible.fetchedYear i < minPlausibleYear) →
       (syncTime envAllImplausible deviceBoot).1 = false ∧
       Status.ntpFailed ∈ ((syncTime envAllImplausible deviceBoot).2).statusLog ∧
       ((syncTime envAllImplausible deviceBoot).2).wifiMode = WifiMode.off ∧
       ((syncTime envAllImplausible deviceBoot).2).wifiConnected = false)) :=
  ⟨rfl, syncTime_plausibility envAllImplausible deviceBoot rfl⟩

/-- C9: when `syncTime` returns false (connect timeout or no plausible
time), the power profile raised at entry is not restored: the CPU stays at
160 MHz and the power-save mode stays `WIFI_PS_NONE`; the saving profile
(40 MHz, `WIFI_PS_MIN_MODEM`, `WiFi.setSleep(true)`) is restored exactly
on the success path. -/
theorem syncTime_power_profile (env : SyncEnv) (d : Device) :
    ((syncTime env d).1 = false →
      ((syncTime env d).2).cpuMhz = 160 ∧
      ((syncTime env d).2).psMode = PsMode.psNone ∧
      ((syncTime env d).2).wifiSleep = d.wifiSleep) ∧
    ((syncTime env d).1 = true →
      ((syncTime env d).2).cpuMhz = 40 ∧
      ((syncTime env d).2).psMode = PsMode.psMinModem ∧
      ((syncTime env d).2).wifiSleep = true) := by
  simp only [syncTime, showStatus, disconnectWiFi]
  cases env.connectOk <;> simp <;> cases ntpPoll env.fetchedYear <;> simp

/-- Witness for C9: a connect timeout leaves the CPU at 160 MHz with
power save disabled. -/
def envNoConnect : SyncEnv := { connectOk := false, fetchedYear := fun _ => 125 }

theorem syncTime_power_profile_witness :
    (syncTime envNoConnect deviceBoot).1 = false ∧
    ((syncTime envNoConnect deviceBoot).2).cpuMhz = 160 ∧
    ((syncTime envNoConnect deviceBoot).2).psMode = PsMode.psNone ∧
    ((syncTime envNoConnect deviceBoot).2).wifiSleep = deviceBoot.wifiSleep :=
  ⟨rfl, (syncTime_power_profile envNoConnect deviceBoot).1 rfl⟩

/-! ### Day-guard variant (`part 001`): sync once per day during hour 5 -/

/-- The static locals of the day-guard variant's `loop`. -/
structure St001 where
  lastSyncDay : Int
  lastDisplayedMinute : Int
  deriving DecidableEq, Repr

structure Out001 where
  attemptSync : Bool
  redraw : Bool
  displayPowerSave : Option Nat
  deriving DecidableEq, Repr

/-- One iteration of the day-guard variant's `loop`.  `syncOk` is the
outcome of the `syncTime` call this cycle would make, and `fetched` the
local time that call reads on success (`syncTime` there ends with
`lastSyncDay = ti.tm_yday`).  The sync attempt fires when
`tm_hour == 5 && lastSyncDay != tm_yday`; the display section shows the
time during [6,22) and otherwise blanks the display and invalidates
`lastDisplayedMinute`. -/
def tick001 (s : St001) (t : Tm) (syncOk : Bool) (fetched : Tm) :
    Out001 × St001 :=
  let attempt : Bool := decide (t.tm_hour = 5 ∧ s.lastSyncDay ≠ (t.tm_yday : Int))
  let lastSyncDay : Int :=
    if attempt && syncOk then (fetched.tm_yday : Int) else s.lastSyncDay
  if 6 ≤ t.tm_hour ∧ t.tm_hour < 22 then
    if (t.tm_min : Int) ≠ s.lastDisplayedMinute then
      ({ attemptSync := attempt, redraw := true, displayPowerSave := some 0 },
       { lastSyncDay := lastSyncDay, lastDisplayedMinute := (t.tm_min : Int) })
    else
      ({ attemptSync := attempt, redraw := false, displayPowerSave := some 0 },
       { lastSyncDay := lastSyncDay, lastDisplayedMinute := s.lastDisplayedMinute })
  else
    ({ attemptSync := attempt, redraw := false, displayPowerSave := some 1 },
     { lastSyncDay := lastSyncDay, lastDisplayedMinute := -1 })

theorem tick001_attemptSync (s : St001) (t : Tm) (ok : Bool) (f : Tm) :
    ((tick001 s t ok f).1).attemptSync
      = decide (t.tm_hour = 5 ∧ s.lastSyncDay ≠ (t.tm_yday : Int)) := by
  simp only [tick001]
  split_ifs <;> rfl

theorem tick001_lastSyncDay (s : St001) (t : Tm) (ok : Bool) (f : Tm) :
    ((tick001 s t ok f).2).lastSyncDay
      = (if decide (t.tm_hour = 5 ∧ s.lastSyncDay ≠ (t.tm_yday : Int)) && ok
         then (f.tm_yday : Int) else s.lastSyncDay) := by
  simp only [tick001]
  split_ifs <;> rfl

/-- C4: `lastSyncDay` records the day-of-year of the fetched time on a
successful sync attempt, and once it equals the current day-of-year every
later cycle of that day makes no sync attempt — the day-based guard
suppresses a second attempt regardless of any other state. -/
theorem day_guard :
    (∀ (s : St001) (t : Tm) (f : Tm),
        ((tick001 s t true f).1).attemptSync = true →
        ((tick001 s t true f).2).lastSyncDay = (f.tm_yday : Int)) ∧
    (∀ (s : St001) (t : Tm) (ok : Bool) (f : Tm),
        s.lastSyncDay = (t.tm_yday : Int) →
        ((tick001 s t ok f).1).attemptSync = false) := by
  constructor
  · intro s t f h
    rw [tick001_attemptSync] at h
    rw [tick001_lastSyncDay, h]
    rfl
  · intro s t ok f h
    rw [tick001_attemptSync]
    simp [h]

/-- A sync-window instant of the day-guard variant: 2025-06-15 05:00:00,
day-of-year 165. -/
def tSyncHour : Tm :=
  { tm_sec := 0, tm_min := 0, tm_hour := 5, tm_mday := 15,
    tm_mon := 5, tm_year := 125, tm_yday := 165 }

/-- Witness for C4: a successful attempt at 05:00 records day 165, and a
second request the same day is suppressed. -/
theorem day_guard_witness :
    (((tick001 ⟨-1, -1⟩ tSyncHour true tSyncHour).1).attemptSync = true ∧
     ((tick001 ⟨-1, -1⟩ tSyncHour true tSyncHour).2).lastSyncDay
        = (tSyncHour.tm_yday : Int)) ∧
    ((⟨(tSyncHour.tm_yday : Int), -1⟩ : St001).lastSyncDay
        = (tSyncHour.tm_yday : Int) ∧
     ((tick001 ⟨(tSyncHour.tm_yday : Int), -1⟩ tSyncHour false
         tSyncHour).1).attemptSync = false) :=
  ⟨⟨by decide, day_guard.1 ⟨-1, -1⟩ tSyncHour tSyncHour (by decide)⟩,
   ⟨rfl, day_guard.2 ⟨(tSyncHour.tm_yday : Int), -1⟩ tSyncHour false tSyncHour rfl⟩⟩

end ESP32Clock
